import Mathlib

/-!
# Verification of the GSSAPI handshake core (`ext/mongo_kerberos/mongo_kerberos_native.c`)

Shallow embedding of the C extension's handshake driver.  The external
cyrus-sasl negotiation engine is a parameter (`SaslEngine`): its start/step
results, its base64 codec and its diagnostic-string function are oracle
fields.  The concrete cyrus base64 codec (`sasl_encode64` / `sasl_decode64`)
is modelled separately and plugged in where a claim is about the real codec.

Machine integers: SASL result codes are `Int`; byte payloads are `List Nat`
with an explicit `< 256` bound where it matters; buffer capacities are `Nat`.
-/

/-! ## SASL constants (from sasl.h) -/

def SASL_CONTINUE : Int := 1
def SASL_OK : Int := 0
def SASL_FAIL : Int := -1
def SASL_BUFOVER : Int := -3
def SASL_BADPROT : Int := -5
def SASL_CB_USER : Nat := 0x4001
def SASL_CB_AUTHNAME : Nat := 0x4002

/-- Embeds `is_sasl_failure` (lines 65-72): a result code is a failure
exactly when it is negative. -/
def is_sasl_failure (result : Int) : Bool := result < 0

/-! ## Error taxonomy

The spec's typed errors.  `negotiation` corresponds to `raise_gssapi_error`
(message, numeric code, engine diagnostic string); `mechanismMismatch` to the
`rb_raise` at line 133; `encodingOverflow` to the `rb_raise` at line 148;
`protocolState` to the host-runtime type error raised by `Data_Get_Struct`
when `@context` is nil (line 45). -/

inductive Err where
  | negotiation (msg : String) (code : Int) (diag : String)
  | mechanismMismatch (selected : String)
  | encodingOverflow (written : Nat) (capacity : Nat)
  | protocolState
deriving DecidableEq

/-- True exactly on the `negotiation` constructor. -/
def Err.isNegotiation : Err → Bool
  | .negotiation _ _ _ => true
  | _ => false

/-! ## Data model -/

/-- The Authenticator's instance variables, as set by `a_init` and
`initialize_challenge`.  The context is the identifier of the wrapped
`sasl_conn_t`, `none` when `@context` was never assigned. -/
structure Authenticator where
  valid : Bool
  user_name : String
  host_name : String
  service_name : String
  canonicalize_host_name : Bool
  context : Option Nat
deriving DecidableEq

/-- Engine-global allocation state: `nextConn` is the identifier the next
successful `sasl_client_new` hands out, so distinct creations yield distinct
contexts. -/
structure World where
  nextConn : Nat
deriving DecidableEq

/-- Embeds `a_init` (lines 50-59): sets `@valid` and the four identity
instance variables; `@context` is left unset. -/
def a_init (user_name host_name service_name : String) (canonicalize_host_name : Bool) :
    Authenticator :=
  { valid := true
    user_name := user_name
    host_name := host_name
    service_name := service_name
    canonicalize_host_name := canonicalize_host_name
    context := none }

/-! ## Credential resolver -/

/-- Outcome of a credential callback: on success the borrowed byte span
(`result`, with its explicit byte length) together with `SASL_OK`; otherwise
the failure code the resolver returns. -/
inductive InteractResult where
  | ok (result : String) (len : Nat)
  | fail (code : Int)
deriving DecidableEq

/-- Embeds `sasl_interact` (lines 74-91): the switch recognizes
`SASL_CB_AUTHNAME` (0x4002) and `SASL_CB_USER` (0x4001) and answers with the
`@user_name` bytes and their length, returning `SASL_OK`; every other id
falls through to `SASL_FAIL`.  The second component is the Authenticator
after the call (the C function performs no store into `self`). -/
def sasl_interact (self : Authenticator) (id : Nat) : InteractResult × Authenticator :=
  match id with
  | 0x4002 => (.ok self.user_name self.user_name.utf8ByteSize, self)
  | 0x4001 => (.ok self.user_name self.user_name.utf8ByteSize, self)
  | _ => (.fail SASL_FAIL, self)

/-! ## The cyrus base64 codec, modelled

Modelled from the spec: the codec itself is the external collaborator
(`codec-encode` / `codec-decode` of §6) and its source is not part of this
repository.  The wire form is standard base64 (§6); the capacity parameter
counts the trailing NUL terminator, per the spec's "off-by-one-undocumented"
note (§4.4) and the source comment at lines 140-141. -/

/-- The base64 digit for a 6-bit value (standard alphabet). -/
def b64Char (n : Nat) : Char :=
  if n < 26 then Char.ofNat (65 + n)
  else if n < 52 then Char.ofNat (97 + (n - 26))
  else if n < 62 then Char.ofNat (48 + (n - 52))
  else if n = 62 then '+'
  else '/'

/-- The 6-bit value of a base64 digit, `none` for a non-digit (so also for
the padding character). -/
def b64Val (c : Char) : Option Nat :=
  if 65 ≤ c.toNat ∧ c.toNat ≤ 90 then some (c.toNat - 65)
  else if 97 ≤ c.toNat ∧ c.toNat ≤ 122 then some (c.toNat - 97 + 26)
  else if 48 ≤ c.toNat ∧ c.toNat ≤ 57 then some (c.toNat - 48 + 52)
  else if c = '+' then some 62
  else if c = '/' then some 63
  else none

/-- Base64 encoding of a byte list, three bytes to four digits, '='-padded. -/
def encB64 : List Nat → List Char
  | [] => []
  | [a] => [b64Char (a / 4), b64Char (a % 4 * 16), '=', '=']
  | [a, b] => [b64Char (a / 4), b64Char (a % 4 * 16 + b / 16), b64Char (b % 16 * 4), '=']
  | a :: b :: c :: rest =>
      b64Char (a / 4) :: b64Char (a % 4 * 16 + b / 16) ::
        b64Char (b % 16 * 4 + c / 64) :: b64Char (c % 64) :: encB64 rest

/-- Base64 decoding, four digits at a time, accepting '=' padding only at the
end; `none` on any malformed input. -/
def decB64 : List Char → Option (List Nat)
  | [] => some []
  | c1 :: c2 :: c3 :: c4 :: rest =>
      match b64Val c1, b64Val c2 with
      | some v1, some v2 =>
          if c3 = '=' then
            if c4 = '=' ∧ rest = [] then some [v1 * 4 + v2 / 16] else none
          else
            match b64Val c3 with
            | some v3 =>
                if c4 = '=' then
                  if rest = [] then some [v1 * 4 + v2 / 16, v2 % 16 * 16 + v3 / 4] else none
                else
                  match b64Val c4 with
                  | some v4 =>
                      match decB64 rest with
                      | some tail =>
                          some ((v1 * 4 + v2 / 16) :: (v2 % 16 * 16 + v3 / 4) ::
                            (v3 % 4 * 64 + v4) :: tail)
                      | none => none
                  | none => none
            | none => none
      | _, _ => none
  | _ => none

/-- Modelled from the spec: the engine's `error-string(code)` diagnostic
text, a fixed total mapping from result codes. -/
def sasl_errstring (code : Int) : String :=
  if code = SASL_BUFOVER then ("overflowed buffer")
  else if code = SASL_BADPROT then ("bad protocol / cancel")
  else ("generic failure")

/-- Modelled from the spec: cyrus `sasl_encode64`.  The encoded length is
`4 * ((inlen + 2) / 3)`; the call succeeds only when that length is strictly
below `outmax`, because the codec's capacity accounting includes the NUL
terminator it writes (§4.4's off-by-one note; source comment lines 140-141).
On success it returns the full encoding; on `SASL_BUFOVER` nothing is
written. -/
def sasl_encode64 (input : List Nat) (outmax : Nat) : Int × List Char :=
  let out := encB64 input
  if out.length < outmax then (SASL_OK, out) else (SASL_BUFOVER, [])

/-- Modelled from the spec: cyrus `sasl_decode64`.  A malformed input fails
with `SASL_BADPROT`; a well-formed one fails with `SASL_BUFOVER` unless its
decoded length is strictly below `outmax` (the codec NUL-terminates the
output inside the same capacity budget). -/
def sasl_decode64 (input : List Char) (outmax : Nat) : Int × List Nat :=
  match decB64 input with
  | none => (SASL_BADPROT, [])
  | some out => if out.length < outmax then (SASL_OK, out) else (SASL_BUFOVER, [])

/-! ## The negotiation engine oracle -/

/-- What `sasl_client_start` reports: a result code, the first outbound raw
payload, and the selected mechanism name. -/
structure StartResult where
  code : Int
  payload : List Nat
  mechanism : String
deriving DecidableEq

/-- What `sasl_client_step` reports: a result code and the outbound raw
payload. -/
structure StepResult where
  code : Int
  payload : List Nat
deriving DecidableEq

/-- The external engine as consumed by the driver: result of
`sasl_client_new`, result of `sasl_client_start`, the step function (from the
decoded inbound bytes), the base64 codec entry points, and the
diagnostic-string function. -/
structure SaslEngine where
  newResult : Int
  start : StartResult
  step : List Nat → StepResult
  encode64 : List Nat → Nat → Int × List Char
  decode64 : List Char → Nat → Int × List Nat
  errstring : Int → String

/-! ## The handshake driver -/

/-- Embeds `mongo_sasl_context` (lines 41-48): reading `@context` before it
was ever assigned yields nil, and `Data_Get_Struct` on nil raises the
host-runtime type error — the spec's `ProtocolStateError`. -/
def mongo_sasl_context (self : Authenticator) : Except Err Nat :=
  match self.context with
  | some conn => .ok conn
  | none => .error .protocolState

/-- Embeds `initialize_challenge` (lines 93-153).  In source order:
`sasl_client_new` (failure: NegotiationError, no context stored); wrap and
store the new connection into `@context` (lines 118-125, unconditionally —
any previously stored context is overwritten); `sasl_client_start` (negative
result: NegotiationError); mechanism check (line 132: any selection other
than "GSSAPI" raises the mismatch error); `SASL_CONTINUE` check (line 136);
`sasl_encode64` into the 4096-byte buffer with capacity `4096 - 1` (negative
result: NegotiationError); the defensive written-length check at line 146
(`EncodingOverflowError`); otherwise the encoded payload is returned. -/
def initialize_challenge (eng : SaslEngine) (self : Authenticator) (w : World) :
    Except Err String × Authenticator × World :=
  if eng.newResult ≠ SASL_OK then
    (.error (.negotiation ("sasl_client_new failed") eng.newResult
      (eng.errstring eng.newResult)), self, w)
  else
    let conn := w.nextConn
    let w' : World := { nextConn := w.nextConn + 1 }
    let self' : Authenticator := { self with context := some conn }
    let s := eng.start
    if is_sasl_failure s.code then
      (.error (.negotiation ("sasl_client_start failed") s.code
        (eng.errstring s.code)), self', w')
    else if s.mechanism ≠ "GSSAPI" then
      (.error (.mechanismMismatch s.mechanism), self', w')
    else if s.code ≠ SASL_CONTINUE then
      (.error (.negotiation ("sasl_client_start did not return SASL_CONTINUE") s.code
        (eng.errstring s.code)), self', w')
    else
      let enc := eng.encode64 s.payload (4096 - 1)
      if is_sasl_failure enc.1 then
        (.error (.negotiation ("sasl_encode64 failed to encode the payload") enc.1
          (eng.errstring enc.1)), self', w')
      else if enc.2.length ≥ 4096 then
        (.error (.encodingOverflow enc.2.length 4096), self', w')
      else
        (.ok enc.2.asString, self', w')

/-- Embeds `evaluate_challenge` (lines 155-188).  In source order: fetch the
context through `mongo_sasl_context`; `sasl_decode64` of the inbound payload
into the 4096-byte buffer with capacity `4096 - 1` (failure:
NegotiationError); `sasl_client_step` (negative result: NegotiationError);
`sasl_encode64` of the outbound payload, again with capacity `4096 - 1`
(failure: NegotiationError).  Note: unlike `initialize_challenge`, there is
no written-length check after the encode — the function returns
`rb_str_new(payload, payload_len)` directly. -/
def evaluate_challenge (eng : SaslEngine) (self : Authenticator) (rb_payload : String) :
    Except Err String × Authenticator :=
  match mongo_sasl_context self with
  | .error e => (.error e, self)
  | .ok _conn =>
    let dec := eng.decode64 rb_payload.toList (4096 - 1)
    if is_sasl_failure dec.1 then
      (.error (.negotiation ("sasl_decode64 failed to decode the payload") dec.1
        (eng.errstring dec.1)), self)
    else
      let st := eng.step dec.2
      if is_sasl_failure st.code then
        (.error (.negotiation ("sasl_client_step failed") st.code
          (eng.errstring st.code)), self)
      else
        let enc := eng.encode64 st.payload (4096 - 1)
        if is_sasl_failure enc.1 then
          (.error (.negotiation ("sasl_encode64 failed to encode the payload") enc.1
            (eng.errstring enc.1)), self)
        else
          (.ok enc.2.asString, self)

/-! ## The transcoder component (§4.4), as the driver performs it -/

/-- The encode operation exactly as both driver functions perform it against
the real codec: `sasl_encode64` into a 4096-byte buffer with capacity
`4096 - 1`, failure raising NegotiationError, followed (as in
`initialize_challenge`) by the defensive written-length check. -/
def encode (bytes : List Nat) : Except Err (List Char) :=
  let enc := sasl_encode64 bytes (4096 - 1)
  if is_sasl_failure enc.1 then
    .error (.negotiation ("sasl_encode64 failed to encode the payload") enc.1
      (sasl_errstring enc.1))
  else if enc.2.length ≥ 4096 then
    .error (.encodingOverflow enc.2.length 4096)
  else
    .ok enc.2

/-- The decode operation exactly as `evaluate_challenge` performs it against
the real codec: `sasl_decode64` into a 4096-byte buffer with capacity
`4096 - 1`, failure raising NegotiationError. -/
def decode (text : List Char) : Except Err (List Nat) :=
  let dec := sasl_decode64 text (4096 - 1)
  if is_sasl_failure dec.1 then
    .error (.negotiation ("sasl_decode64 failed to decode the payload") dec.1
      (sasl_errstring dec.1))
  else
    .ok dec.2

/-! ## Codec lemmas -/

/-- The digit table and its inverse agree on every 6-bit value. -/
theorem b64Val_b64Char_lt : ∀ n, n < 64 → b64Val (b64Char n) = some n := by decide

/-- No 6-bit value encodes to the padding character. -/
theorem b64Char_ne_pad : ∀ n, n < 64 → b64Char n ≠ '=' := by decide

/-- Encoded length is four digits per three-byte group, as cyrus computes
it: `4 * ((inlen + 2) / 3)`. -/
theorem encB64_length : ∀ l : List Nat, (encB64 l).length = 4 * ((l.length + 2) / 3)
  | [] => rfl
  | [_] => by simp [encB64]
  | [_, _] => by simp [encB64]
  | _ :: _ :: _ :: rest => by
      simp only [encB64, List.length_cons, encB64_length rest]
      omega

/-- Round-trip of the pure codec: decoding an encoding recovers the bytes,
for genuine bytes (each below 256). -/
theorem decB64_encB64 : ∀ l : List Nat, (∀ b ∈ l, b < 256) → decB64 (encB64 l) = some l
  | [], _ => rfl
  | [a], h => by
      have ha : a < 256 := h a (by simp)
      have h1 : a / 4 < 64 := by omega
      have h2 : a % 4 * 16 < 64 := by omega
      simp only [encB64, decB64, b64Val_b64Char_lt _ h1, b64Val_b64Char_lt _ h2]
      simp only [reduceIte, and_self, Option.some.injEq, List.cons.injEq, and_true]
      omega
  | [a, b], h => by
      have ha : a < 256 := h a (by simp)
      have hb : b < 256 := h b (by simp)
      have h1 : a / 4 < 64 := by omega
      have h2 : a % 4 * 16 + b / 16 < 64 := by omega
      have h3 : b % 16 * 4 < 64 := by omega
      simp only [encB64, decB64, b64Val_b64Char_lt _ h1, b64Val_b64Char_lt _ h2,
        b64Val_b64Char_lt _ h3, if_neg (b64Char_ne_pad _ h3)]
      simp only [reduceIte, Option.some.injEq, List.cons.injEq, and_true]
      omega
  | a :: b :: c :: rest, h => by
      have ha : a < 256 := h a (by simp)
      have hb : b < 256 := h b (by simp)
      have hc : c < 256 := h c (by simp)
      have h1 : a / 4 < 64 := by omega
      have h2 : a % 4 * 16 + b / 16 < 64 := by omega
      have h3 : b % 16 * 4 + c / 64 < 64 := by omega
      have h4 : c % 64 < 64 := by omega
      have ih := decB64_encB64 rest (fun x hx => h x (by simp [hx]))
      simp only [encB64, decB64, b64Val_b64Char_lt _ h1, b64Val_b64Char_lt _ h2,
        b64Val_b64Char_lt _ h3, b64Val_b64Char_lt _ h4,
        if_neg (b64Char_ne_pad _ h3), if_neg (b64Char_ne_pad _ h4), ih]
      simp only [Option.some.injEq, List.cons.injEq, and_true]
      omega

/-! ## Concrete engines and fixtures -/

/-- The mock engine of the spec's end-to-end scenario (§8): creation
succeeds; start selects "GSSAPI" with result `SASL_CONTINUE` and token
`0x01 0x02`; stepping on the decoded bytes `0x01 0x02` succeeds with outbound
`0x03 0x04`; the codec is the modelled cyrus one. -/
def c8Engine : SaslEngine :=
  { newResult := SASL_OK
    start := { code := SASL_CONTINUE, payload := [1, 2], mechanism := "GSSAPI" }
    step := fun b =>
      if b = [1, 2] then { code := SASL_OK, payload := [3, 4] }
      else { code := SASL_FAIL, payload := [] }
    encode64 := sasl_encode64
    decode64 := sasl_decode64
    errstring := fun _ => "generic failure" }

/-- The Authenticator of the end-to-end scenario. -/
def aliceAuth : Authenticator := a_init ("alice") ("db.example.com") ("mongodb") false

/-- An Authenticator that already holds a Context, as after initiation. -/
def authWithCtx : Authenticator := { a_init ("u") ("h") ("s") false with context := some 0 }

/-- Engine whose start selects "PLAIN" while otherwise not failing. -/
def c1Engine : SaslEngine :=
  { c8Engine with start := { code := SASL_CONTINUE, payload := [], mechanism := "PLAIN" } }

/-- Engine whose start succeeds outright (`SASL_OK`, not CONTINUE) while
selecting "PLAIN". -/
def c2Engine : SaslEngine :=
  { c8Engine with start := { code := SASL_OK, payload := [], mechanism := "PLAIN" } }

/-- Engine whose start succeeds outright (`SASL_OK`, not CONTINUE) with the
expected "GSSAPI" selection. -/
def c2wEngine : SaslEngine :=
  { c8Engine with start := { code := SASL_OK, payload := [], mechanism := "GSSAPI" } }

/-- Engine whose codec stub reports a successful encode that wrote 4096
bytes — exactly the fixed buffer's size. -/
def overflowEngine : SaslEngine :=
  { newResult := SASL_OK
    start := { code := SASL_CONTINUE, payload := [1, 2], mechanism := "GSSAPI" }
    step := fun _ => { code := SASL_OK, payload := [9] }
    encode64 := fun _ _ => (SASL_OK, List.replicate 4096 'A')
    decode64 := sasl_decode64
    errstring := fun _ => "generic failure" }

/-- An inbound token whose decoded form is 4096 bytes: the encoding of 4096
zero bytes. -/
def bigToken : String := (encB64 (List.replicate 4096 0)).asString

/-! ## Claim theorems -/

/-- C1: whenever context creation succeeds and the engine's start operation
does not fail but reports a selected mechanism other than "GSSAPI" (the
empty string included), `initialize_challenge` raises the mechanism-mismatch
error naming that mechanism, and returns no encoded token. -/
theorem c1_initiate_mechanism_mismatch (eng : SaslEngine) (a : Authenticator) (w : World)
    (hnew : eng.newResult = SASL_OK)
    (hok : is_sasl_failure eng.start.code = false)
    (hmech : eng.start.mechanism ≠ "GSSAPI") :
    (initialize_challenge eng a w).1 = .error (.mechanismMismatch eng.start.mechanism) := by
  simp [initialize_challenge, hnew, hok, hmech]

/-- Witness for C1: an engine that selects "PLAIN" with a CONTINUE result. -/
theorem c1_witness :
    (initialize_challenge c1Engine (a_init ("u") ("h") ("s") false) ⟨0⟩).1
      = .error (.mechanismMismatch ("PLAIN")) :=
  c1_initiate_mechanism_mismatch c1Engine (a_init ("u") ("h") ("s") false) ⟨0⟩
    rfl (by decide) (by decide)

/-- C2 counterexample: with a start result of `SASL_OK` (which is not
`SASL_CONTINUE`) and a selected mechanism "PLAIN", `initialize_challenge`
raises the mechanism-mismatch error — not a `NegotiationError` carrying the
numeric result code, as the claim requires for every non-CONTINUE result. -/
theorem c2_counterexample :
    (initialize_challenge c2Engine (a_init ("u") ("h") ("s") false) ⟨0⟩).1
        = .error (.mechanismMismatch ("PLAIN"))
      ∧ c2Engine.start.code ≠ SASL_CONTINUE
      ∧ Err.isNegotiation (.mechanismMismatch ("PLAIN")) = false := by
  exact ⟨rfl, by decide, rfl⟩

/-- C2 amended: a start result other than `SASL_CONTINUE` makes
`initialize_challenge` raise `NegotiationError` carrying that code and the
engine's diagnostic string, provided the result is an outright failure
(negative) or the selected mechanism equals "GSSAPI"; with a non-negative
result and a different selection, the mechanism-mismatch check fires
first. -/
theorem c2_initiate_not_continue (eng : SaslEngine) (a : Authenticator) (w : World)
    (hnew : eng.newResult = SASL_OK)
    (hnc : eng.start.code ≠ SASL_CONTINUE)
    (hside : is_sasl_failure eng.start.code = true ∨ eng.start.mechanism = "GSSAPI") :
    (initialize_challenge eng a w).1
      = .error (.negotiation
          (if is_sasl_failure eng.start.code then ("sasl_client_start failed")
           else ("sasl_client_start did not return SASL_CONTINUE"))
          eng.start.code (eng.errstring eng.start.code)) := by
  rcases hside with hf | hm
  · simp [initialize_challenge, hnew, hf]
  · by_cases hf : is_sasl_failure eng.start.code
    · simp [initialize_challenge, hnew, hf]
    · simp [initialize_challenge, hnew, hf, hm, hnc]

/-- Witness for C2 (amended): start succeeds outright with "GSSAPI"
selected; the raised error is the NegotiationError for the CONTINUE check. -/
theorem c2_witness :
    (initialize_challenge c2wEngine (a_init ("u") ("h") ("s") false) ⟨0⟩).1
      = .error (.negotiation
          (if is_sasl_failure c2wEngine.start.code then ("sasl_client_start failed")
           else ("sasl_client_start did not return SASL_CONTINUE"))
          c2wEngine.start.code (c2wEngine.errstring c2wEngine.start.code)) :=
  c2_initiate_not_continue c2wEngine (a_init ("u") ("h") ("s") false) ⟨0⟩
    rfl (by decide) (Or.inr rfl)

/-- C5: stepping an Authenticator that holds no Context raises
`ProtocolStateError` and produces no token, whatever the engine and the
inbound token. -/
theorem c5_step_requires_context (eng : SaslEngine) (a : Authenticator) (t : String)
    (h : a.context = none) :
    evaluate_challenge eng a t = (.error .protocolState, a) := by
  simp [evaluate_challenge, mongo_sasl_context, h]

/-- Witness for C5: a freshly constructed Authenticator, never initiated. -/
theorem c5_witness :
    evaluate_challenge c8Engine (a_init ("u") ("h") ("s") false) ("AQI=")
      = (.error .protocolState, a_init ("u") ("h") ("s") false) :=
  c5_step_requires_context c8Engine (a_init ("u") ("h") ("s") false) ("AQI=") rfl

/-- C7: when the codec reports a decode failure, `evaluate_challenge` raises
`NegotiationError` with the codec's numeric code and the engine diagnostic,
returns no token, leaves the Authenticator unchanged — and the outcome is
identical for every step function (the engine's step entry point is never
consulted). -/
theorem c7_step_decode_failure (eng : SaslEngine) (f : List Nat → StepResult)
    (a : Authenticator) (conn : Nat) (t : String) (c : Int) (out : List Nat)
    (hctx : a.context = some conn)
    (hdec : eng.decode64 t.toList (4096 - 1) = (c, out))
    (hfail : is_sasl_failure c = true) :
    evaluate_challenge { eng with step := f } a t
      = (.error (.negotiation ("sasl_decode64 failed to decode the payload") c
          (eng.errstring c)), a) := by
  have hdec' : eng.decode64 t.data 4095 = (c, out) := hdec
  simp [evaluate_challenge, mongo_sasl_context, hctx, hdec', hfail]

/-- Witness for C7: the malformed token "!!!!" fails cyrus decoding with
`SASL_BADPROT` regardless of the c8 scenario step function. -/
theorem c7_witness :
    evaluate_challenge { c8Engine with step := c8Engine.step } authWithCtx ("!!!!")
      = (.error (.negotiation ("sasl_decode64 failed to decode the payload") SASL_BADPROT
          (c8Engine.errstring SASL_BADPROT)), authWithCtx) :=
  c7_step_decode_failure c8Engine c8Engine.step authWithCtx 0 ("!!!!") SASL_BADPROT []
    rfl (by decide) (by decide)

/-- C9: the credential resolver answers the AUTH_NAME and USER_NAME
callbacks with the stored user name and its exact byte length (reporting
success), reports "not handled" (`SASL_FAIL`) for every other identifier,
and in all cases returns the Authenticator with every field unchanged. -/
theorem c9_resolver_contract (a : Authenticator) (id : Nat) :
    sasl_interact a id
      = (if id = SASL_CB_AUTHNAME ∨ id = SASL_CB_USER
          then .ok a.user_name a.user_name.utf8ByteSize
          else .fail SASL_FAIL, a) := by
  unfold sasl_interact
  split
  · simp [SASL_CB_AUTHNAME, SASL_CB_USER]
  · simp [SASL_CB_AUTHNAME, SASL_CB_USER]
  · rename_i h1 h2
    rw [if_neg ?_]
    rintro (h | h)
    · exact h1 h
    · exact h2 h

/-- The overflow branch of `initialize_challenge`: when every earlier check
passes but the codec reports a written count of at least 4096, the driver
raises the overflow error. -/
theorem initialize_challenge_overflow (eng : SaslEngine) (a : Authenticator) (w : World)
    (hnew : eng.newResult = SASL_OK)
    (hmech : eng.start.mechanism = "GSSAPI")
    (hcont : eng.start.code = SASL_CONTINUE)
    (ecode : Int) (out : List Char)
    (henc : eng.encode64 eng.start.payload (4096 - 1) = (ecode, out))
    (hefail : is_sasl_failure ecode = false)
    (hlen : out.length ≥ 4096) :
    (initialize_challenge eng a w).1 = .error (.encodingOverflow out.length 4096) := by
  have hcc : is_sasl_failure SASL_CONTINUE = false := by decide
  simp [initialize_challenge, hnew, hmech, hcont, henc, hefail, hlen, hcc]

/-- The success branch of `evaluate_challenge`: with a context present and
no reported failure anywhere, the driver returns the codec's output as the
token — with no check of the reported written count. -/
theorem evaluate_challenge_ok (eng : SaslEngine) (a : Authenticator) (conn : Nat) (t : String)
    (hctx : a.context = some conn)
    (dcode : Int) (base : List Nat)
    (hdec : eng.decode64 t.toList (4096 - 1) = (dcode, base))
    (hdfail : is_sasl_failure dcode = false)
    (hstep : is_sasl_failure (eng.step base).code = false)
    (ecode : Int) (out : List Char)
    (henc : eng.encode64 (eng.step base).payload (4096 - 1) = (ecode, out))
    (hefail : is_sasl_failure ecode = false) :
    (evaluate_challenge eng a t).1 = .ok out.asString := by
  have hdec' : eng.decode64 t.data 4095 = (dcode, base) := hdec
  simp [evaluate_challenge, mongo_sasl_context, hctx, hdec', hdfail, hstep, henc, hefail]

/-- C3: at the failing input — a codec reporting a successful encode whose
written count equals the 4096-byte buffer size — `initialize_challenge`
raises `EncodingOverflowError` with the written count and the capacity, but
`evaluate_challenge` performs no such check and returns the oversized token:
the claimed check is missing on the step path. -/
theorem c3_overflow_check_missing_in_step :
    (initialize_challenge overflowEngine (a_init ("u") ("h") ("s") false) ⟨0⟩).1
        = .error (.encodingOverflow 4096 4096)
      ∧ (evaluate_challenge overflowEngine authWithCtx ("AQI=")).1
        = .ok ((List.replicate 4096 'A').asString) := by
  have hlen : (List.replicate 4096 'A').length = 4096 := List.length_replicate _ _
  constructor
  · have h := initialize_challenge_overflow overflowEngine
      (a_init ("u") ("h") ("s") false) ⟨0⟩ rfl rfl (by decide)
      SASL_OK (List.replicate 4096 'A') rfl (by decide) (by rw [hlen])
    rw [h, hlen]
  · exact evaluate_challenge_ok overflowEngine authWithCtx 0 ("AQI=") rfl
      SASL_OK [1, 2] (by decide) (by decide) (by decide)
      SASL_OK (List.replicate 4096 'A') rfl (by decide)

/-- C6 counterexample: running `initialize_challenge` twice in a row on the
same Authenticator (the scenario engine succeeding both times) stores the
fresh context 0 first, then overwrites it with the fresh context 1: a second
Context is stored over an existing one. -/
theorem c6_counterexample :
    ((initialize_challenge c8Engine aliceAuth ⟨0⟩).2.1).context = some 0
      ∧ ((initialize_challenge c8Engine
            ((initialize_challenge c8Engine aliceAuth ⟨0⟩).2.1)
            ((initialize_challenge c8Engine aliceAuth ⟨0⟩).2.2)).2.1).context = some 1 :=
  ⟨rfl, rfl⟩

/-- C6 amended: the Authenticator references at most one Context at a time
(the single `@context` slot), but `initialize_challenge` is not guarded by
the presence of an existing Context: whenever `sasl_client_new` succeeds it
stores the freshly created Context unconditionally, replacing any existing
one (the displaced Context is left to the host runtime's garbage collection
for disposal), and the allocator advances past the fresh identifier. -/
theorem c6_initiate_stores_fresh_context (eng : SaslEngine) (a : Authenticator) (w : World)
    (h : eng.newResult = SASL_OK) :
    (initialize_challenge eng a w).2
      = ({ a with context := some w.nextConn }, { nextConn := w.nextConn + 1 }) := by
  unfold initialize_challenge
  rw [if_neg (by simp [h])]
  dsimp only
  repeat' split
  all_goals rfl

/-- Witness for C6 (amended): an Authenticator already holding context 0,
re-initiated with the allocator at 7, ends up holding the fresh context 7. -/
theorem c6_witness :
    (initialize_challenge c8Engine authWithCtx ⟨7⟩).2
      = ({ authWithCtx with context := some 7 }, { nextConn := 8 }) :=
  c6_initiate_stores_fresh_context c8Engine authWithCtx ⟨7⟩ rfl

/-- C8: the end-to-end scenario of §8: `initialize_challenge` on
Authenticator("alice", "db.example.com", "mongodb", false) with the mock
engine (mechanism "GSSAPI", result CONTINUE, token 0x01 0x02) returns
exactly "AQI="; `evaluate_challenge` fed "AQI=" (decoding to 0x01 0x02,
engine answering 0x03 0x04) returns exactly "AwQ=". -/
theorem c8_end_to_end :
    (initialize_challenge c8Engine aliceAuth ⟨0⟩).1 = .ok ("AQI=")
      ∧ (evaluate_challenge c8Engine ((initialize_challenge c8Engine aliceAuth ⟨0⟩).2.1)
          ("AQI=")).1 = .ok ("AwQ=") :=
  ⟨rfl, rfl⟩

/-- Success case of the encode path: when the encoding fits the passed
capacity and the defensive length check, `encode` returns the digits. -/
theorem encode_ok (l : List Nat) (h1 : (encB64 l).length < 4096 - 1)
    (h2 : ¬ (encB64 l).length ≥ 4096) :
    encode l = .ok (encB64 l) := by
  simp [encode, sasl_encode64, h1, h2, is_sasl_failure, SASL_OK]

/-- Overflow case of the encode path: an encoding that does not fit the
passed capacity makes the codec report `SASL_BUFOVER` and `encode` raise
the NegotiationError. -/
theorem encode_bufover (l : List Nat) (h : ¬ (encB64 l).length < 4096 - 1) :
    encode l = .error (.negotiation ("sasl_encode64 failed to encode the payload")
      SASL_BUFOVER (sasl_errstring SASL_BUFOVER)) := by
  simp [encode, sasl_encode64, h, is_sasl_failure, SASL_BUFOVER]

/-- The codec's decode on a well-formed input that fits the capacity. -/
theorem sasl_decode64_ok (input : List Char) (out : List Nat) (outmax : Nat)
    (h : decB64 input = some out) (hlen : out.length < outmax) :
    sasl_decode64 input outmax = (SASL_OK, out) := by
  unfold sasl_decode64
  rw [h]
  exact if_pos hlen

/-- The codec's decode on a well-formed input that does not fit the
capacity. -/
theorem sasl_decode64_bufover (input : List Char) (out : List Nat) (outmax : Nat)
    (h : decB64 input = some out) (hlen : ¬ out.length < outmax) :
    sasl_decode64 input outmax = (SASL_BUFOVER, []) := by
  unfold sasl_decode64
  rw [h]
  exact if_neg hlen

/-- Success case of the decode path. -/
theorem decode_ok (text : List Char) (out : List Nat)
    (h : decB64 text = some out) (hlen : out.length < 4096 - 1) :
    decode text = .ok out := by
  have hd := sasl_decode64_ok text out (4096 - 1) h hlen
  simp [decode, hd, is_sasl_failure, SASL_OK]

/-- C4 amended: the driver's bounded transcoding round-trips every byte
sequence of length at most 3069: such an input encodes to at most 4092
digits, which together with the codec's NUL byte fits the `4096 - 1`
capacity the driver passes (3070 bytes already encode to 4096 digits and do
not fit). -/
theorem c4_roundtrip (bytes : List Nat) (hlen : bytes.length ≤ 3069)
    (hbyte : ∀ b ∈ bytes, b < 256) :
    (encode bytes).bind decode = .ok bytes := by
  have hl : (encB64 bytes).length = 4 * ((bytes.length + 2) / 3) := encB64_length bytes
  have h1 : (encB64 bytes).length < 4096 - 1 := by omega
  have h2 : ¬ (encB64 bytes).length ≥ 4096 := by omega
  have hdec : decB64 (encB64 bytes) = some bytes := decB64_encB64 bytes hbyte
  rw [encode_ok bytes h1 h2]
  show decode (encB64 bytes) = .ok bytes
  exact decode_ok (encB64 bytes) bytes hdec (by omega)

/-- Witness for C4 (amended) at the two-byte sequence 0x01 0x02. -/
theorem c4_witness : (encode [1, 2]).bind decode = .ok [1, 2] :=
  c4_roundtrip [1, 2] (by decide) (by decide)

/-- C4 counterexample: 3072 zero bytes encode to 4096 digits; with the
codec's NUL accounting that does not fit the `4096 - 1` capacity the driver
passes, so `encode` fails with `NegotiationError` (code `SASL_BUFOVER`) and
the round-trip does not hold at length 3072. -/
theorem c4_counterexample :
    encode (List.replicate 3072 0)
        = .error (.negotiation ("sasl_encode64 failed to encode the payload") SASL_BUFOVER
            (sasl_errstring SASL_BUFOVER))
      ∧ (encode (List.replicate 3072 0)).bind decode ≠ .ok (List.replicate 3072 0) := by
  have hl : (encB64 (List.replicate 3072 0)).length = 4096 := by
    rw [encB64_length, List.length_replicate]
  have henc := encode_bufover (List.replicate 3072 0) (by omega)
  refine ⟨henc, ?_⟩
  rw [henc]
  intro hcon
  exact Except.noConfusion hcon

/-- C10 amended: the decode that `evaluate_challenge` performs (capacity
`4096 - 1`, one byte of which the codec reserves for its NUL terminator)
accepts every well-formed inbound token carrying at most 4094 decoded
bytes. -/
theorem c10_decode_capacity (t : String) (bytes : List Nat)
    (hdec : decB64 t.toList = some bytes) (hlen : bytes.length ≤ 4094) :
    sasl_decode64 t.toList (4096 - 1) = (SASL_OK, bytes) :=
  sasl_decode64_ok t.toList bytes (4096 - 1) hdec (by omega)

/-- Witness for C10 (amended): the token "AQI=" decodes to its two bytes. -/
theorem c10_witness :
    sasl_decode64 ("AQI=").toList (4096 - 1) = (SASL_OK, [1, 2]) :=
  c10_decode_capacity ("AQI=") [1, 2] (by decide) (by decide)

/-- C10 counterexample: `bigToken` decodes to exactly 4096 bytes — within
the claimed 4096-byte allowance — yet the decode performed by
`evaluate_challenge` fails for lack of capacity (`SASL_BUFOVER`), because
the driver passes `4096 - 1` and the codec reserves one more byte for its
NUL terminator. -/
theorem c10_counterexample :
    decB64 bigToken.toList = some (List.replicate 4096 0)
      ∧ (List.replicate 4096 (0 : Nat)).length = 4096
      ∧ (evaluate_challenge c8Engine authWithCtx bigToken).1
        = .error (.negotiation ("sasl_decode64 failed to decode the payload") SASL_BUFOVER
            (c8Engine.errstring SASL_BUFOVER)) := by
  have htl : bigToken.toList = encB64 (List.replicate 4096 0) := rfl
  have hdec : decB64 (encB64 (List.replicate 4096 0)) = some (List.replicate 4096 0) :=
    decB64_encB64 _ (fun b hb => by
      have := List.eq_of_mem_replicate hb
      omega)
  have hrl : (List.replicate 4096 (0 : Nat)).length = 4096 := List.length_replicate _ _
  refine ⟨by rw [htl]; exact hdec, hrl, ?_⟩
  have hd64 : sasl_decode64 bigToken.data 4095 = (SASL_BUFOVER, []) := by
    have h2 : bigToken.data = encB64 (List.replicate 4096 0) := htl
    rw [h2]
    exact sasl_decode64_bufover _ _ _ hdec (by rw [hrl]; omega)
  have hsf : is_sasl_failure SASL_BUFOVER = true := by decide
  simp [evaluate_challenge, mongo_sasl_context, authWithCtx, c8Engine, hd64, hsf]
